import Mathlib

/-
Verification of the job-execution engine in `src/Worker.ts`
(react-native-job-queue).

The Worker runs one job attempt end-to-end: it parses the job payload
(`JSON.parse`), increments the shared execution counter, invokes the
lifecycle callbacks (`onStart`, `onSuccess`, `onFailure`, `onCompletion`)
around the attempt, and dispatches to one of three execution modes chosen
from `(timeout, retries)`.

The embedding below is a denotational model of `Worker.execute` and its
helpers.  Promises are modelled by their settling behaviour: a value of
type `Option (Except JErr Unit)` is `none` when the promise never settles
(the awaiting `execute` call then never returns), `some (.ok ())` when it
resolves and `some (.error e)` when it rejects with `e`.  The user handler
(`this.executer`) is modelled by the outcome of each of its successive
invocations; lifecycle callbacks are modelled by whether the user-supplied
callback raises when invoked, plus an event trace recording every
invocation (and the counter increments/decrements) in program order.
-/

namespace ReactNativeJobQueue

/-- Outcome of one invocation of the user-supplied executer: the returned
promise either resolves (`ok`) or rejects with an error message. -/
inductive HandlerOutcome where
  | ok
  | err (msg : String)
deriving DecidableEq

/-- Behaviour of `this.executer` across its successive invocations during
one `execute` call: invocation number `i` (0-based) has outcome `h i`. -/
def Handler : Type := Nat → HandlerOutcome

/-- The `RawJob` fields read by `Worker.execute`: `id` (used in error
messages), the serialized `payload` handed to `JSON.parse`, and `timeout`.
The claims only concern non-negative timeouts, so `timeout : Nat`. -/
structure RawJob where
  id : String
  payload : String
  timeout : Nat
deriving DecidableEq

/-- The four lifecycle callback slots of `WorkerOptions`. -/
inductive CbKind where
  | start
  | success
  | failure
  | completion
deriving DecidableEq

/-- Errors that can flow through `execute`:
`parse` is the `JSON.parse` exception on a malformed payload;
`handlerErr` is a raw handler rejection surfaced unmodified;
`timeout` is the `Job (id) timed out` error built in `executeWithTimeout`;
`retryExhausted` is the error built at line 120-121 of `Worker.ts`, whose
message embeds the retry count and the original failure (`reason`);
`callbackRaised` is an exception thrown by a user-supplied callback. -/
inductive JErr where
  | parse (payload : String)
  | handlerErr (msg : String)
  | timeout (jobId : String)
  | retryExhausted (jobId : String) (retryCount : Nat) (reason : String)
  | callbackRaised (k : CbKind)
deriving DecidableEq

/-- The message template of the timeout error in `executeWithTimeout`. -/
def timeoutMessage (jobId : String) : String :=
  "Job " ++ jobId ++ " timed out"

/-- The message template of the retry-exhaustion error in
`executeWithRetry`: it embeds the retry count and the original failure. -/
def retryMessage (jobId : String) (retryCount : Nat) (reason : String) : String :=
  "Job " ++ jobId ++ " was rejected after " ++ toString retryCount ++
    " retries. Stack trace: " ++ reason

/-- The three execution modes of `Worker.execute` (lines 80-86).  In retry
mode the job's `timeout` value is passed to `executeWithRetry` as its
`timeout` parameter, documented there as "Time between retries", so the
second field of `retry` is the inter-attempt delay, not a deadline. -/
inductive ExecMode where
  | retry (retries delayBetweenAttempts : Nat)
  | timeoutOnly (timeout : Nat)
  | plain
deriving DecidableEq

/-- The mode-selection logic of `execute`, read off the if/else-if/else
chain at lines 80-86 of `Worker.ts`: `retries > 0` dispatches to
`executeWithRetry` (taking precedence over timeout), otherwise
`timeout > 0` dispatches to `executeWithTimeout`, otherwise the handler is
run plainly. -/
def selectMode (timeout retries : Nat) : ExecMode :=
  if retries > 0 then .retry retries timeout
  else if timeout > 0 then .timeoutOnly timeout
  else .plain

/-- Settling behaviour of the promise `tmp` built by `executeWithRetry`
(lines 114-133 of `Worker.ts`) at recursion level `retryCount`, and hence
of the promise returned by that `executeWithRetry` call (it only does
`await tmp`).  Reading the executor function:
* `this.executer(job.payload).then(resolve)`: `tmp` resolves iff handler
  invocation `retryCount` resolves;
* in the `.catch`, `reject(...)` runs iff `retryCount >= retries`, with
  the retry-exhaustion error;
* in every other case nothing ever calls `resolve` or `reject`: the
  recursive `executeWithRetry` call made after `this.wait(timeout)` has
  its result swallowed by `.then((result) => result).catch((error) =>
  error)` and the executor's return value is discarded by the `Promise`
  constructor, so `tmp` never settles (`none`). -/
def retrySettle (h : Handler) (jobId : String) (retries retryCount : Nat) :
    Option (Except JErr Unit) :=
  match h retryCount with
  | .ok => some (.ok ())
  | .err reason =>
      if retryCount ≥ retries then
        some (.error (.retryExhausted jobId retryCount reason))
      else
        none

/-- Whether handler invocation `i` occurs during a retry-mode `execute`
call.  Level `retryCount = j` invokes the handler once and, whenever that
invocation fails, schedules level `j + 1` after `this.wait(timeout)` —
unconditionally: the `reject` at exhaustion (line 120) is not followed by
a `return`, so the chain only stops at the first successful invocation.
Hence invocation `i` occurs iff all earlier invocations failed. -/
def handlerInvoked (h : Handler) (i : Nat) : Bool :=
  (List.range i).all (fun j => decide (h j ≠ .ok))

/-- Result of the `Promise.race` in `executeWithTimeout` (lines 96-103):
the handler is invoked (invocation 0) and raced against a timer that
rejects with the timeout error after `timeout` ms.  `timerFirst` says
whether the timer settles before the handler's promise does; when it does,
the handler's eventual result is discarded by the race. -/
def executeWithTimeoutResult (h : Handler) (jobId : String) (timerFirst : Bool) :
    Except JErr Unit :=
  if timerFirst then .error (.timeout jobId)
  else
    match h 0 with
    | .ok => .ok ()
    | .err m => .error (.handlerErr m)

/-- Result of a plain-mode handler invocation (line 85). -/
def plainResult (o : HandlerOutcome) : Except JErr Unit :=
  match o with
  | .ok => .ok ()
  | .err m => .error (.handlerErr m)

/-- Whether each user-supplied lifecycle callback raises when invoked.
The library's defaults are no-ops, i.e. never raise (`noRaise`). -/
structure Callbacks where
  startRaises : Bool
  successRaises : Bool
  failureRaises : Bool
  completionRaises : Bool
deriving DecidableEq

/-- The default no-op callbacks of `WorkerOptions`: none of them raises. -/
def noRaise : Callbacks :=
  ⟨false, false, false, false⟩

/-- Environment of one `execute` call: the behaviour of `JSON.parse` on
payload strings (`parse s = true` iff parsing succeeds), the handler's
per-invocation outcomes, the timer/handler race order for timeout mode,
and the callback behaviour. -/
structure ExecEnv where
  parse : String → Bool
  handler : Handler
  timerFirst : Bool
  cb : Callbacks

/-- Observable events of one `execute` call, in program order:
`inc`/`dec` are the mutations of `this.executionCount` (lines 77 and 92),
the rest are the lifecycle callback invocations. -/
inductive Ev where
  | inc
  | dec
  | start
  | success
  | failure (e : JErr)
  | completion
deriving DecidableEq

/-- How the promise returned by `execute` settles: it resolves
(`resolved`), rejects with an error (`thrown e`), or never settles
(`hang`). -/
inductive ExecResult where
  | resolved
  | thrown (e : JErr)
  | hang
deriving DecidableEq

/-- Outcome of one `execute` call: how its promise settles together with
the trace of events it performed. -/
structure ExecOutcome where
  result : ExecResult
  events : List Ev
deriving DecidableEq

/-- The `finally` clause (lines 91-94): decrement `executionCount`, then
invoke `onCompletion`.  If `onCompletion` raises, its exception replaces
whatever control flow (`pending`) was in progress; otherwise `pending`
continues. -/
def runFinally (cb : Callbacks) (pending : ExecResult) (evs : List Ev) :
    ExecOutcome :=
  let evs := evs ++ [Ev.dec, Ev.completion]
  if cb.completionRaises then ⟨.thrown (.callbackRaised .completion), evs⟩
  else ⟨pending, evs⟩

/-- The `catch` clause (lines 88-90): invoke `onFailure(job, error)`, then
`throw error`.  If `onFailure` itself raises, its exception supersedes the
original one; either way the `finally` clause still runs. -/
def runCatch (cb : Callbacks) (e : JErr) (evs : List Ev) : ExecOutcome :=
  let evs := evs ++ [Ev.failure e]
  let pending : ExecResult :=
    if cb.failureRaises then .thrown (.callbackRaised .failure) else .thrown e
  runFinally cb pending evs

/-- The body of the try block after `onStart`: the mode dispatch of lines
80-86, via `selectMode`.  `none` means the awaited promise never settles. -/
def dispatch (retries : Nat) (env : ExecEnv) (job : RawJob) :
    Option (Except JErr Unit) :=
  match selectMode job.timeout retries with
  | .retry r _d => retrySettle env.handler job.id r 0
  | .timeoutOnly _t => some (executeWithTimeoutResult env.handler job.id env.timerFirst)
  | .plain => some (plainResult (env.handler 0))

/-- Denotation of `Worker.execute` (lines 73-95) with the worker's
configured `retries`.  In order: `JSON.parse(rawJob.payload)` runs before
anything else — a parse failure rejects the `execute` promise before the
counter increment and before any callback; then `executionCount++`; then,
inside `try`, `onStart(job)`, the mode dispatch, and `onSuccess(job)`;
exceptions go through the `catch` and `finally` clauses; if the awaited
dispatch promise never settles, `execute` hangs with the counter still
incremented and no further callback. -/
def execute (retries : Nat) (env : ExecEnv) (job : RawJob) : ExecOutcome :=
  if env.parse job.payload = false then
    ⟨.thrown (.parse job.payload), []⟩
  else
    let evs := [Ev.inc, Ev.start]
    if env.cb.startRaises then runCatch env.cb (.callbackRaised .start) evs
    else
      match dispatch retries env job with
      | none => ⟨.hang, evs⟩
      | some (.error e) => runCatch env.cb e evs
      | some (.ok ()) =>
          let evs := evs ++ [Ev.success]
          if env.cb.successRaises then
            runCatch env.cb (.callbackRaised .success) evs
          else runFinally env.cb .resolved evs

/-- The `isBusy` getter (lines 60-62): `executionCount === concurrency`. -/
def isBusy (executionCount concurrency : Int) : Bool :=
  executionCount == concurrency

/-- The `availableExecuters` getter (lines 66-68):
`concurrency - executionCount`. -/
def availableExecuters (concurrency executionCount : Int) : Int :=
  concurrency - executionCount

/-!
## Concurrency model for the execution counter

`this.executionCount` is the one piece of shared mutable state.  Each
`execute` call contributes to it the subsequence of `inc`/`dec` events of
its trace (its *counter footprint*).  A run of several concurrent
`execute` calls on the same worker is an arbitrary interleaving of their
footprints; `Inter cs t` says that trace `t` is such an interleaving of
the footprints `cs`.  `GInter C n cs t` additionally requires that every
increment happens only while the counter is below the capacity `C` — the
discipline of a dispatcher that consults `isBusy` / `availableExecuters`
before each `execute` call, which the Worker itself does not enforce. -/

/-- Counter effect of one event: `executionCount++`, `executionCount--`,
or none. -/
def cdelta (e : Ev) : Int :=
  match e with
  | .inc => 1
  | .dec => -1
  | _ => 0

/-- Counter value after running trace `t` from value `c`. -/
def runCount (c : Int) : List Ev → Int
  | [] => c
  | e :: t => runCount (c + cdelta e) t

/-- Minimum counter value reached at any point while running trace `t`
from value `c` (including the starting value). -/
def minCount (c : Int) : List Ev → Int
  | [] => c
  | e :: t => min c (minCount (c + cdelta e) t)

/-- Maximum counter value reached at any point while running trace `t`
from value `c` (including the starting value). -/
def maxCount (c : Int) : List Ev → Int
  | [] => c
  | e :: t => max c (maxCount (c + cdelta e) t)

/-- Whether an event touches the execution counter. -/
def isCounterOp (e : Ev) : Bool :=
  match e with
  | .inc => true
  | .dec => true
  | _ => false

/-- Counter footprint of one `execute` call: the subsequence of its trace
that mutates `executionCount`. -/
def counterOps (o : ExecOutcome) : List Ev :=
  o.events.filter isCounterOp

/-- `Inter cs t`: trace `t` is an interleaving of the per-call event lists
`cs`, each call's events kept in order.  The scheduler repeatedly picks
the first call (using `perm` to bring any call to the front) and emits its
next event. -/
inductive Inter : List (List Ev) → List Ev → Prop where
  | nil : Inter [] []
  | take (op : Ev) (rest : List Ev) (cs : List (List Ev)) (t : List Ev) :
      Inter (rest :: cs) t → Inter ((op :: rest) :: cs) (op :: t)
  | fin (cs : List (List Ev)) (t : List Ev) :
      Inter cs t → Inter ([] :: cs) t
  | perm (cs cs' : List (List Ev)) (t : List Ev) :
      List.Perm cs cs' → Inter cs' t → Inter cs t

/-- `GInter C n cs t`: like `Inter cs t` with the counter (starting at
`n`) threaded through, and every `inc` guarded by `n < C` — the
caller-side capacity check of the pull-based dispatch model. -/
inductive GInter (C : Int) : Int → List (List Ev) → List Ev → Prop where
  | nil (n : Int) : GInter C n [] []
  | take (op : Ev) (rest : List Ev) (cs : List (List Ev)) (t : List Ev) (n : Int) :
      (op = Ev.inc → n < C) →
      GInter C (n + cdelta op) (rest :: cs) t → GInter C n ((op :: rest) :: cs) (op :: t)
  | fin (cs : List (List Ev)) (t : List Ev) (n : Int) :
      GInter C n cs t → GInter C n ([] :: cs) t
  | perm (cs cs' : List (List Ev)) (t : List Ev) (n : Int) :
      List.Perm cs cs' → GInter C n cs' t → GInter C n cs t

/-- The counter footprints that can appear mid-interleaving: a call that
has not yet incremented (`[inc]`, `[inc, dec]`), one whose decrement is
pending (`[dec]`), or a finished/empty one (`[]`). -/
def DecShape (fp : List Ev) : Prop :=
  fp ∈ ([[], [Ev.inc], [Ev.inc, Ev.dec], [Ev.dec]] : List (List Ev))

/-- Number of calls whose remaining footprint is a pending decrement. -/
def decFootprints : List (List Ev) → Nat
  | [] => 0
  | fp :: cs => (if fp = [Ev.dec] then 1 else 0) + decFootprints cs

/-! ## Concrete instances used in witnesses and counterexamples -/

/-- A payload language in which every string parses. -/
def parseAll : String → Bool := fun _ => true

/-- A payload language in which exactly the string `bad` fails to parse. -/
def parseRejectBad : String → Bool := fun s => !(s == "bad")

/-- A handler whose every invocation succeeds. -/
def okHandler : Handler := fun _ => .ok

/-- A handler whose every invocation fails. -/
def alwaysFailHandler : Handler := fun _ => .err "boom"

/-- A handler that fails on its first two invocations and succeeds on the
third. -/
def failTwiceHandler : Handler := fun i => if i < 2 then .err "boom" else .ok

/-- Environment: every payload parses, handler always fails, default
callbacks. -/
def envAlwaysFail : ExecEnv := ⟨parseAll, alwaysFailHandler, false, noRaise⟩

/-- Environment: every payload parses, handler fails twice then succeeds,
default callbacks. -/
def envFailTwice : ExecEnv := ⟨parseAll, failTwiceHandler, false, noRaise⟩

/-- Environment: payload `bad` fails to parse, default callbacks. -/
def envBadPayload : ExecEnv := ⟨parseRejectBad, okHandler, false, noRaise⟩

/-- Environment: every payload parses, handler succeeds, but the
user-supplied `onSuccess` callback raises. -/
def envSuccessRaises : ExecEnv := ⟨parseAll, okHandler, false, ⟨false, true, false, false⟩⟩

/-- Environment: every payload parses, handler succeeds, default
callbacks; in timeout mode the timer fires first. -/
def envTimerFirst : ExecEnv := ⟨parseAll, okHandler, true, noRaise⟩

/-- Environment: every payload parses, handler succeeds, default
callbacks; in timeout mode the handler settles first. -/
def envTimerSecond : ExecEnv := ⟨parseAll, okHandler, false, noRaise⟩

/-- A job dispatched in retry mode (`timeout` is then the inter-attempt
delay). -/
def jobR : RawJob := ⟨"j1", "1", 100⟩

/-- A second retry-mode job. -/
def jobR2 : RawJob := ⟨"j2", "1", 50⟩

/-- A third retry-mode job. -/
def jobR3 : RawJob := ⟨"j3", "1", 100⟩

/-- A job with the unparseable payload `bad`. -/
def jobBad : RawJob := ⟨"j4", "bad", 0⟩

/-- A second job with the unparseable payload `bad`. -/
def jobBad5 : RawJob := ⟨"j5", "bad", 0⟩

/-- A third job with the unparseable payload `bad`. -/
def jobBad7 : RawJob := ⟨"j7", "bad", 0⟩

/-- A plain-mode job (no timeout, worker without retries). -/
def jobPlain : RawJob := ⟨"p1", "1", 0⟩

/-- A timeout-mode job. -/
def jobT : RawJob := ⟨"t1", "1", 50⟩

/-! ## Helper lemmas -/

/-- The `finally` clause always appends exactly the decrement and the
`onCompletion` invocation, whatever `onCompletion` then does. -/
theorem runFinally_events (cb : Callbacks) (pending : ExecResult) (evs : List Ev) :
    (runFinally cb pending evs).events = evs ++ [Ev.dec, Ev.completion] := by
  unfold runFinally
  split <;> rfl

/-- The `catch` clause appends the `onFailure` invocation and then runs
the `finally` clause. -/
theorem runCatch_events (cb : Callbacks) (e : JErr) (evs : List Ev) :
    (runCatch cb e evs).events = evs ++ [Ev.failure e, Ev.dec, Ev.completion] := by
  unfold runCatch
  simp [runFinally_events]

/-- With `retries > 0` the dispatch awaits the retry chain at level 0,
whatever the job's timeout. -/
theorem dispatch_retry_mode (retries : Nat) (env : ExecEnv) (job : RawJob)
    (hr : 0 < retries) :
    dispatch retries env job = retrySettle env.handler job.id retries 0 := by
  simp [dispatch, selectMode, hr]

/-- With `retries = 0` and a positive timeout the dispatch awaits the
handler/timer race. -/
theorem dispatch_timeout_mode (env : ExecEnv) (job : RawJob) (ht : 0 < job.timeout) :
    dispatch 0 env job =
      some (executeWithTimeoutResult env.handler job.id env.timerFirst) := by
  simp [dispatch, selectMode, ht]

/-- Level 0 of the retry chain never settles when the first handler
invocation fails and `retries > 0`. -/
theorem retrySettle_none (env : ExecEnv) (jobId : String) (retries : Nat)
    (hr : 0 < retries) (hf : env.handler 0 ≠ .ok) :
    retrySettle env.handler jobId retries 0 = none := by
  unfold retrySettle
  have hnr : ¬ (0 ≥ retries) := by omega
  cases hh : env.handler 0 with
  | ok => exact absurd hh hf
  | err m => simp [hnr]

/-- Every `execute` call either leaves the counter alone (parse failure),
increments it and never decrements (retry-mode hang), or increments and
later decrements it exactly once. -/
theorem execute_counterOps (retries : Nat) (env : ExecEnv) (job : RawJob) :
    counterOps (execute retries env job) ∈
      ([[], [Ev.inc], [Ev.inc, Ev.dec]] : List (List Ev)) := by
  cases hp : env.parse job.payload <;>
  cases hs : env.cb.startRaises <;>
  cases hsu : env.cb.successRaises <;>
  cases hf : env.cb.failureRaises <;>
  cases hc : env.cb.completionRaises <;>
  rcases hd : dispatch retries env job with _ | (e | u) <;>
  simp [execute, runCatch, runFinally, counterOps, isCounterOp, hp, hs, hsu, hf, hc, hd]

/-- `decFootprints` only depends on the multiset of footprints. -/
theorem decFootprints_perm {cs cs' : List (List Ev)} (h : List.Perm cs cs') :
    decFootprints cs = decFootprints cs' := by
  induction h with
  | nil => rfl
  | cons x _ ih => simp [decFootprints, ih]
  | swap x y l => simp only [decFootprints]; ring
  | trans _ _ ih1 ih2 => exact ih1.trans ih2

/-- In any interleaving whose per-call footprints have the shapes arising
from `execute`, the counter never drops below zero: every decrement comes
from a call whose increment already happened. -/
theorem inter_minCount_nonneg {cs : List (List Ev)} {t : List Ev} (hI : Inter cs t) :
    ∀ start : Int, (∀ fp ∈ cs, DecShape fp) →
      (decFootprints cs : Int) ≤ start → 0 ≤ minCount start t := by
  induction hI with
  | nil =>
      intro start _ hc
      simp only [minCount]
      exact le_trans (by positivity) hc
  | take op rest cs t _h ih =>
      intro start hs hc
      have hstart : (0 : Int) ≤ start :=
        le_trans (by positivity) hc
      have hhead : DecShape (op :: rest) := hs _ (by simp)
      simp only [DecShape, List.mem_cons, List.not_mem_nil, or_false] at hhead
      have hrest : ∀ fp ∈ rest :: cs, DecShape fp := by
        intro fp hfp
        rcases List.mem_cons.mp hfp with rfl | hfp
        · rcases hhead with h1 | h1 | h1 | h1 <;> simp_all [DecShape]
        · exact hs _ (List.mem_cons_of_mem _ hfp)
      have hcount : (decFootprints (rest :: cs) : Int) ≤ start + cdelta op := by
        rcases hhead with h1 | h1 | h1 | h1
        · exact absurd h1 (by simp)
        · obtain ⟨rfl, rfl⟩ := List.cons_eq_cons.mp h1
          simp only [decFootprints, cdelta] at hc ⊢
          norm_num at hc ⊢
          omega
        · obtain ⟨rfl, rfl⟩ := List.cons_eq_cons.mp h1
          simp only [decFootprints, cdelta] at hc ⊢
          norm_num at hc ⊢
          omega
        · obtain ⟨rfl, rfl⟩ := List.cons_eq_cons.mp h1
          simp only [decFootprints, cdelta] at hc ⊢
          norm_num at hc ⊢
          omega
      have := ih (start + cdelta op) hrest hcount
      simp only [minCount]
      omega
  | fin cs t _h ih =>
      intro start hs hc
      refine ih start (fun fp hfp => hs _ (List.mem_cons_of_mem _ hfp)) ?_
      simp only [decFootprints] at hc
      norm_num at hc
      exact hc
  | perm cs cs' t hperm _h ih =>
      intro start hs hc
      refine ih start (fun fp hfp => hs _ (hperm.mem_iff.mpr hfp)) ?_
      rwa [decFootprints_perm hperm] at hc

/-- In a capacity-guarded interleaving starting at or below the capacity,
the counter never exceeds the capacity. -/
theorem ginter_maxCount_le {C n : Int} {cs : List (List Ev)} {t : List Ev}
    (hG : GInter C n cs t) : n ≤ C → maxCount n t ≤ C := by
  induction hG with
  | nil n =>
      intro hn
      simpa [maxCount] using hn
  | take op rest cs t n hguard _h ih =>
      intro hn
      have hstep : n + cdelta op ≤ C := by
        cases op with
        | inc => have := hguard rfl; simp only [cdelta]; omega
        | dec => simp only [cdelta]; omega
        | start => simp only [cdelta]; omega
        | success => simp only [cdelta]; omega
        | failure e => simp only [cdelta]; omega
        | completion => simp only [cdelta]; omega
      simp only [maxCount]
      have := ih hstep
      omega
  | fin cs t n _h ih => exact ih
  | perm cs cs' t n hperm _h ih => exact ih

/-- A list of footprints none of which is a pending decrement contributes
no pending decrements. -/
theorem decFootprints_eq_zero {cs : List (List Ev)} (h : ∀ fp ∈ cs, fp ≠ [Ev.dec]) :
    decFootprints cs = 0 := by
  induction cs with
  | nil => rfl
  | cons fp cs ih =>
      simp only [decFootprints]
      rw [if_neg (h fp (by simp)), ih (fun x hx => h x (List.mem_cons_of_mem _ hx))]

/-! ## Claims -/

/-- C3, counterexample: the claim's bound `inFlightCount ≤ concurrency`
fails under an unguarded interleaving.  `Worker.execute` performs no
capacity check, so two concurrent `execute` calls on a worker with
`concurrency = 1` may both increment before either decrements: the trace
`[inc, inc, dec, dec]` is an interleaving of two real `execute`
footprints, reaches counter value 2 > 1, and `availableExecuters`
becomes -1. -/
theorem C3_counterexample :
    Inter [[Ev.inc, Ev.dec], [Ev.inc, Ev.dec]] [Ev.inc, Ev.inc, Ev.dec, Ev.dec] ∧
    counterOps (execute 0 envTimerSecond jobPlain) = [Ev.inc, Ev.dec] ∧
    maxCount 0 [Ev.inc, Ev.inc, Ev.dec, Ev.dec] = 2 ∧
    ¬ maxCount 0 [Ev.inc, Ev.inc, Ev.dec, Ev.dec] ≤ 1 ∧
    availableExecuters 1 2 = -1 := by
  refine ⟨?_, by decide, by decide, by decide, by decide⟩
  exact Inter.take _ _ _ _
    (Inter.perm _ [[Ev.inc, Ev.dec], [Ev.dec]] _ (List.Perm.swap _ _ _)
      (Inter.take _ _ _ _ (Inter.take _ _ _ _ (Inter.fin _ _
        (Inter.take _ _ _ _ (Inter.fin _ _ Inter.nil))))))

/-- C3, amended: under any interleaving of `execute` footprints the
counter never goes negative; the upper bound `inFlightCount ≤ concurrency`
holds when every increment is guarded by the caller-side capacity check
`inFlightCount < concurrency` (the Worker itself does not enforce it); and
`isBusy` is true iff `inFlightCount == concurrency`. -/
theorem C3_amended_counter_invariant (cs : List (List Ev)) (t : List Ev) (C c : Int) :
    ((∀ fp ∈ cs, ∃ retries env job, fp = counterOps (execute retries env job)) →
      Inter cs t → 0 ≤ minCount 0 t) ∧
    (GInter C 0 cs t → 0 ≤ C → maxCount 0 t ≤ C) ∧
    (isBusy c C = true ↔ c = C) := by
  refine ⟨?_, fun hG hC => ginter_maxCount_le hG hC, by simp [isBusy]⟩
  intro hcs hI
  refine inter_minCount_nonneg hI 0 ?_ ?_
  · intro fp hfp
    obtain ⟨r, env, j, rfl⟩ := hcs fp hfp
    have h3 := execute_counterOps r env j
    have hsub : ∀ x ∈ ([[], [Ev.inc], [Ev.inc, Ev.dec]] : List (List Ev)), DecShape x := by
      simp only [DecShape]
      decide
    exact hsub _ h3
  · have hz : decFootprints cs = 0 := by
      refine decFootprints_eq_zero ?_
      intro fp hfp heq
      obtain ⟨r, env, j, rfl⟩ := hcs fp hfp
      have h3 := execute_counterOps r env j
      rw [heq] at h3
      revert h3
      decide
    rw [hz]
    norm_num

/-- C3 amended, witness: a guarded one-call interleaving on a worker with
concurrency 1 keeps the counter in bounds, and `isBusy 5 5` holds. -/
theorem C3_amended_counter_invariant_witness :
    0 ≤ minCount 0 [Ev.inc, Ev.dec] ∧ maxCount 0 [Ev.inc, Ev.dec] ≤ 1 ∧
    isBusy 1 1 = true := by
  have h := C3_amended_counter_invariant [[Ev.inc, Ev.dec]] [Ev.inc, Ev.dec] 1 1
  refine ⟨h.1 ?_ ?_, h.2.1 ?_ (by norm_num), h.2.2.mpr rfl⟩
  · intro fp hfp
    refine ⟨0, envTimerSecond, jobPlain, ?_⟩
    have hfp' : fp = [Ev.inc, Ev.dec] := by simpa using hfp
    rw [hfp']
    decide
  · exact Inter.take _ _ _ _ (Inter.take _ _ _ _ (Inter.fin _ _ Inter.nil))
  · refine GInter.take _ _ _ _ _ (fun _ => by norm_num) ?_
    refine GInter.take _ _ _ _ _ (fun hx => Ev.noConfusion hx) ?_
    exact GInter.fin _ _ _ (GInter.nil _)

/-- C1, code behaviour at the claimed scenario (`retries = 2`, handler
fails on every invocation): the promise awaited by `execute` never
settles, so `execute` hangs with only the increment and `onStart`
performed — no `RetryExhaustedError` is surfaced and neither `onFailure`
nor `onCompletion` ever runs; the exhaustion error is built at recursion
level 2 but rejects only the level-2 promise, which nothing observes; and
the handler keeps being re-invoked at every level, without bound, instead
of exactly 3 times. -/
theorem C1_retry_exhaustion_diverges :
    execute 2 envAlwaysFail jobR = ⟨.hang, [Ev.inc, Ev.start]⟩ ∧
    retrySettle alwaysFailHandler "j1" 2 0 = none ∧
    retrySettle alwaysFailHandler "j1" 2 2 =
      some (.error (.retryExhausted "j1" 2 "boom")) ∧
    (∀ i, handlerInvoked alwaysFailHandler i = true) := by
  refine ⟨by decide, rfl, rfl, ?_⟩
  intro i
  simp [handlerInvoked, List.all_eq_true, alwaysFailHandler]

/-- C2, code behaviour at the claimed scenario (`retries = 2`, handler
fails twice then succeeds): exactly 3 handler invocations do occur
(invocations 0, 1, 2 and no more), but the promise awaited by `execute`
never settles, so `execute` never resolves and `onSuccess` is never
invoked. -/
theorem C2_retry_success_diverges :
    execute 2 envFailTwice jobR = ⟨.hang, [Ev.inc, Ev.start]⟩ ∧
    handlerInvoked failTwiceHandler 2 = true ∧
    handlerInvoked failTwiceHandler 3 = false := by
  decide

/-- C8: execution-mode selection is the stated pure total case split on
`(timeout, retries)`: `retries > 0` selects retry mode whatever the
timeout (which is then passed to `executeWithRetry` as the inter-attempt
delay, the second field of `ExecMode.retry`), `retries = 0 ∧ timeout > 0`
selects timeout-only mode, and otherwise plain mode; accordingly, with
`retries > 0` the dispatch awaits the retry chain started at level 0. -/
theorem C8_mode_selection (timeout retries : Nat) (env : ExecEnv) (job : RawJob) :
    (0 < retries → selectMode timeout retries = .retry retries timeout) ∧
    (retries = 0 → 0 < timeout → selectMode timeout retries = .timeoutOnly timeout) ∧
    (retries = 0 → timeout = 0 → selectMode timeout retries = .plain) ∧
    (0 < retries → dispatch retries env job = retrySettle env.handler job.id retries 0) := by
  refine ⟨fun h => ?_, fun h h2 => ?_, fun h h2 => ?_, fun h => ?_⟩
  · simp [selectMode, h]
  · subst h
    simp [selectMode, h2]
  · subst h
    subst h2
    simp [selectMode]
  · simp [dispatch, selectMode, h]

/-- C8, witness: the three modes at concrete configurations, and the
retry-mode dispatch at a concrete environment. -/
theorem C8_mode_selection_witness :
    selectMode 7 2 = .retry 2 7 ∧ selectMode 7 0 = .timeoutOnly 7 ∧
    selectMode 0 0 = .plain ∧
    dispatch 2 envAlwaysFail jobR = retrySettle alwaysFailHandler "j1" 2 0 :=
  ⟨(C8_mode_selection 7 2 envAlwaysFail jobR).1 (by decide),
   (C8_mode_selection 7 0 envAlwaysFail jobR).2.1 rfl (by decide),
   (C8_mode_selection 0 0 envAlwaysFail jobR).2.2.1 rfl rfl,
   (C8_mode_selection 0 2 envAlwaysFail jobR).2.2.2 (by decide)⟩

/-- C9: on a payload that fails to deserialize, `execute` rejects with the
parse error having performed no event at all: the counter was not
incremented and no lifecycle callback ran, because `JSON.parse` is called
before `executionCount++` and before the `try` block. -/
theorem C9_parse_failure_short_circuits (retries : Nat) (env : ExecEnv) (job : RawJob)
    (hp : env.parse job.payload = false) :
    execute retries env job = ⟨.thrown (.parse job.payload), []⟩ := by
  simp [execute, hp]

/-- C9, witness at a concrete unparseable payload. -/
theorem C9_parse_failure_short_circuits_witness :
    execute 3 envBadPayload jobBad = ⟨.thrown (.parse "bad"), []⟩ :=
  C9_parse_failure_short_circuits 3 envBadPayload jobBad (by decide)

/-- C10: in retry mode (`retries > 0`, parse succeeding, `onStart` not
raising), the promise awaited by `execute` settles — and then resolves —
exactly when the first handler invocation succeeds; level 0 can never
reject since its guard `0 >= retries` is false; if the first invocation
fails the outer promise never settles, so `execute` hangs right after
`onStart`: no `onSuccess`/`onFailure`/`onCompletion` and no decrement. -/
theorem C10_retry_first_attempt_only (retries : Nat) (env : ExecEnv) (job : RawJob)
    (hr : 0 < retries) (hp : env.parse job.payload = true)
    (hs : env.cb.startRaises = false) :
    (retrySettle env.handler job.id retries 0 = some (.ok ()) ↔ env.handler 0 = .ok) ∧
    (env.handler 0 ≠ .ok → execute retries env job = ⟨.hang, [Ev.inc, Ev.start]⟩) := by
  constructor
  · unfold retrySettle
    have hnr : ¬ (0 ≥ retries) := by omega
    cases hh : env.handler 0 with
    | ok => simp
    | err m => simp [hnr]
  · intro hf
    have hd : dispatch retries env job = none :=
      (dispatch_retry_mode retries env job hr).trans
        (retrySettle_none env job.id retries hr hf)
    simp [execute, hp, hs, hd]

/-- C10, witness: retry mode with a failing first invocation at a concrete
environment. -/
theorem C10_retry_first_attempt_only_witness :
    (retrySettle alwaysFailHandler "j1" 2 0 = some (.ok ()) ↔
      alwaysFailHandler 0 = .ok) ∧
    execute 2 envAlwaysFail jobR = ⟨.hang, [Ev.inc, Ev.start]⟩ := by
  have h := C10_retry_first_attempt_only 2 envAlwaysFail jobR (by decide) (by decide) rfl
  exact ⟨h.1, h.2 (by decide)⟩

/-- C4, counterexample: on a payload that fails to deserialize, `execute`
throws the parse error but invokes NO callback at all — in particular
neither the failure callback nor the completion callback fires,
contradicting the claim that both are still invoked. -/
theorem C4_counterexample :
    execute 0 envBadPayload jobBad = ⟨.thrown (.parse "bad"), []⟩ ∧
    Ev.completion ∉ (execute 0 envBadPayload jobBad).events ∧
    Ev.failure (.parse "bad") ∉ (execute 0 envBadPayload jobBad).events := by
  decide

/-- C4, amended: a deserialization failure is fatal for the attempt and is
not retried (whatever `retries` is configured), but instead of triggering
`failure` then `completion` it is thrown to the caller before the counter
increment, with no lifecycle callback invoked. -/
theorem C4_amended_parse_failure_fatal (retries : Nat) (env : ExecEnv) (job : RawJob)
    (hp : env.parse job.payload = false) :
    (execute retries env job).result = .thrown (.parse job.payload) ∧
    (∀ e, Ev.failure e ∉ (execute retries env job).events) ∧
    Ev.completion ∉ (execute retries env job).events := by
  simp [execute, hp]

/-- C4 amended, witness at a concrete unparseable payload with retries
configured. -/
theorem C4_amended_parse_failure_fatal_witness :
    (execute 2 envBadPayload jobBad5).result = .thrown (.parse "bad") ∧
    Ev.failure (.parse "bad") ∉ (execute 2 envBadPayload jobBad5).events ∧
    Ev.completion ∉ (execute 2 envBadPayload jobBad5).events :=
  ⟨(C4_amended_parse_failure_fatal 2 envBadPayload jobBad5 (by decide)).1,
   (C4_amended_parse_failure_fatal 2 envBadPayload jobBad5 (by decide)).2.1 (.parse "bad"),
   (C4_amended_parse_failure_fatal 2 envBadPayload jobBad5 (by decide)).2.2⟩

/-- C5, counterexample: three `execute` calls violating the claim as
universally stated.  (a) A parse failure never reaches `onCompletion`.
(b) A retry-mode call whose first attempt fails hangs: `onCompletion`
never runs and the counter is never decremented.  (c) When the
user-supplied `onSuccess` raises, both `onSuccess` and `onFailure` are
invoked in one call, violating the 'exactly one of' ordering. -/
theorem C5_counterexample :
    Ev.completion ∉ (execute 1 envBadPayload jobBad5).events ∧
    Ev.completion ∉ (execute 2 envAlwaysFail jobR2).events ∧
    Ev.dec ∉ (execute 2 envAlwaysFail jobR2).events ∧
    (execute 0 envSuccessRaises jobPlain).events =
      [Ev.inc, Ev.start, Ev.success, Ev.failure (.callbackRaised .success),
       Ev.dec, Ev.completion] := by
  decide

/-- C5, amended: for every `execute` call whose payload deserializes,
whose awaited promise settles (a retry-mode first-attempt failure hangs
instead), and whose `onSuccess` callback does not itself raise, the
counter is incremented once and decremented once and `onCompletion` runs
exactly once, with the decrement and `onCompletion` as the final steps —
even if the handler, `onStart`, `onFailure` or `onCompletion` raises —
and the callback order is `onStart`, then exactly one of
`onSuccess`/`onFailure`, then `onCompletion`. -/
theorem C5_amended_callback_discipline (retries : Nat) (env : ExecEnv) (job : RawJob)
    (hp : env.parse job.payload = true)
    (hsu : env.cb.successRaises = false)
    (hterm : (execute retries env job).result ≠ .hang) :
    ∃ mid : List Ev,
      (execute retries env job).events =
        [Ev.inc, Ev.start] ++ mid ++ [Ev.dec, Ev.completion] ∧
      (mid = [Ev.success] ∨ ∃ e, mid = [Ev.failure e]) := by
  cases hs : env.cb.startRaises with
  | true =>
      refine ⟨[Ev.failure (.callbackRaised .start)], ?_, Or.inr ⟨_, rfl⟩⟩
      simp [execute, hp, hs, runCatch_events]
  | false =>
      rcases hd : dispatch retries env job with _ | (e | u)
      · exact absurd (by simp [execute, hp, hs, hd]) hterm
      · refine ⟨[Ev.failure e], ?_, Or.inr ⟨_, rfl⟩⟩
        simp [execute, hp, hs, hd, runCatch_events]
      · cases u
        refine ⟨[Ev.success], ?_, Or.inl rfl⟩
        simp [execute, hp, hs, hd, hsu, runFinally_events]

/-- C5 amended, witness: a plain-mode successful call at a concrete
environment. -/
theorem C5_amended_callback_discipline_witness :
    ∃ mid : List Ev,
      (execute 0 envTimerSecond jobPlain).events =
        [Ev.inc, Ev.start] ++ mid ++ [Ev.dec, Ev.completion] ∧
      (mid = [Ev.success] ∨ ∃ e, mid = [Ev.failure e]) :=
  C5_amended_callback_discipline 0 envTimerSecond jobPlain (by decide) rfl (by decide)

/-- C6: in timeout-only mode (`retries = 0`, `timeout > 0`, parse
succeeding, default callbacks), `execute` fails with the timeout error
when the timer settles first — and then its outcome does not depend on
the handler at all, modelling that the handler is not cancelled and its
eventual result is discarded — while if the handler resolves first,
`execute` resolves and no timeout error is raised. -/
theorem C6_timeout_only_race (env : ExecEnv) (job : RawJob)
    (hp : env.parse job.payload = true) (hcb : env.cb = noRaise)
    (ht : 0 < job.timeout) :
    (env.timerFirst = true →
      execute 0 env job =
        ⟨.thrown (.timeout job.id),
         [Ev.inc, Ev.start, Ev.failure (.timeout job.id), Ev.dec, Ev.completion]⟩) ∧
    (env.timerFirst = true → ∀ h' : Handler,
      execute 0 { env with handler := h' } job = execute 0 env job) ∧
    (env.timerFirst = false → env.handler 0 = .ok →
      execute 0 env job =
        ⟨.resolved, [Ev.inc, Ev.start, Ev.success, Ev.dec, Ev.completion]⟩) := by
  obtain ⟨p, h, tf, cb⟩ := env
  dsimp only at hp hcb ⊢
  subst hcb
  have hgen : ∀ hh : Handler,
      execute 0 ⟨p, hh, true, noRaise⟩ job =
        ⟨.thrown (.timeout job.id),
         [Ev.inc, Ev.start, Ev.failure (.timeout job.id), Ev.dec, Ev.completion]⟩ := by
    intro hh
    have hd := dispatch_timeout_mode ⟨p, hh, true, noRaise⟩ job ht
    dsimp only at hd
    rw [show executeWithTimeoutResult hh job.id true =
      Except.error (.timeout job.id) from rfl] at hd
    simp only [noRaise] at hd
    simp [execute, hp, hd, noRaise, runCatch, runFinally]
  refine ⟨fun htf => ?_, fun htf h' => ?_, fun htf hok => ?_⟩
  · subst htf
    exact hgen h
  · subst htf
    exact (hgen h').trans (hgen h).symm
  · subst htf
    have hd := dispatch_timeout_mode ⟨p, h, false, noRaise⟩ job ht
    dsimp only at hd
    have hres : executeWithTimeoutResult h job.id false = .ok () := by
      simp [executeWithTimeoutResult, hok]
    rw [hres] at hd
    simp only [noRaise] at hd
    simp [execute, hp, hd, noRaise, runFinally]

/-- C6, witness: timer first at 50ms on a slow handler, and handler first
on a fast successful handler, plus handler-independence when the timer
wins. -/
theorem C6_timeout_only_race_witness :
    execute 0 envTimerFirst jobT =
      ⟨.thrown (.timeout "t1"),
       [Ev.inc, Ev.start, Ev.failure (.timeout "t1"), Ev.dec, Ev.completion]⟩ ∧
    execute 0 { envTimerFirst with handler := alwaysFailHandler } jobT =
      execute 0 envTimerFirst jobT ∧
    execute 0 envTimerSecond jobT =
      ⟨.resolved, [Ev.inc, Ev.start, Ev.success, Ev.dec, Ev.completion]⟩ :=
  ⟨(C6_timeout_only_race envTimerFirst jobT (by decide) rfl (by decide)).1 rfl,
   (C6_timeout_only_race envTimerFirst jobT (by decide) rfl (by decide)).2.1 rfl
     alwaysFailHandler,
   (C6_timeout_only_race envTimerSecond jobT (by decide) rfl (by decide)).2.2 rfl
     (by decide)⟩

/-- C7, counterexample: two non-success paths contradicting the claim.
A parse failure throws its error to the caller without ever invoking
`onFailure`; and a retry-mode call whose first attempt fails hangs, so its
failure is neither passed to `onFailure` nor surfaced to the caller. -/
theorem C7_counterexample :
    (execute 0 envBadPayload jobBad7).result = .thrown (.parse "bad") ∧
    Ev.failure (.parse "bad") ∉ (execute 0 envBadPayload jobBad7).events ∧
    (execute 2 envAlwaysFail jobR3).result = .hang ∧
    Ev.failure (.handlerErr "boom") ∉ (execute 2 envAlwaysFail jobR3).events := by
  decide

/-- C7, amended: for every `execute` call whose payload deserializes,
whose callbacks do not raise, and whose awaited promise settles, failures
are propagated exactly: `execute` rejects with an error `e` iff `onFailure`
was invoked with that same `e`; so every settling non-success path both
notifies `onFailure` and re-raises the same error to the caller. -/
theorem C7_amended_failure_propagation (retries : Nat) (env : ExecEnv) (job : RawJob)
    (hp : env.parse job.payload = true) (hcb : env.cb = noRaise)
    (hterm : (execute retries env job).result ≠ .hang) (e : JErr) :
    (execute retries env job).result = .thrown e ↔
      Ev.failure e ∈ (execute retries env job).events := by
  rcases hd : dispatch retries env job with _ | (e0 | u)
  · exact absurd (by simp [execute, hp, hcb, noRaise, hd]) hterm
  · simp only [execute, hp, hcb, noRaise, hd, Bool.false_eq_true, if_false,
      runCatch, runFinally]
    simp
    exact eq_comm
  · cases u
    simp [execute, hp, hcb, noRaise, hd, runFinally]

/-- C7 amended, witness: a plain-mode failing call propagates the raw
handler error to `onFailure` and to the caller. -/
theorem C7_amended_failure_propagation_witness :
    (execute 0 envAlwaysFail jobPlain).result = .thrown (.handlerErr "boom") ↔
      Ev.failure (.handlerErr "boom") ∈ (execute 0 envAlwaysFail jobPlain).events :=
  C7_amended_failure_propagation 0 envAlwaysFail jobPlain (by decide) rfl (by decide)
    (.handlerErr "boom")

end ReactNativeJobQueue
